import Mathlib

/-!
Verification of the SOTA-tracker cache/refresh core and its utility
functions, as a shallow embedding of the Python sources
(`src/fetchers/cache_manager.py`, `src/utils/models.py`,
`src/utils/hardware.py`).
-/

namespace SotaTracker

/-! ## Record normalizer (`src/utils/models.py`) -/

/-- Python `str.replace(a, b)` for single-character `a`, `b`:
replaces every occurrence of the character `a` by `b`. -/
def pyReplaceChar (a b : Char) (s : String) : String :=
  s.map fun c => if c = a then b else c

/-- Python `str.lower()` restricted to the basic-latin letters that occur in
model names: lowercases every character. -/
def pyLower (s : String) : String :=
  s.map Char.toLower

/-- `normalize_model_id` from `src/utils/models.py`:
`if not name: return ""` then
`name.lower().replace(" ", "-").replace("/", "-").replace(".", "-")`. -/
def normalize_model_id (name : String) : String :=
  if name = "" then ""
  else pyReplaceChar '.' '-' (pyReplaceChar '/' '-' (pyReplaceChar ' ' '-' (pyLower name)))

/-- The per-character action of `normalize_model_id`: lowercase, then map each
of space, slash, dot to a hyphen. -/
def normalizeChar (c : Char) : Char :=
  let c1 := Char.toLower c
  let c2 := if c1 = ' ' then '-' else c1
  let c3 := if c2 = '/' then '-' else c2
  if c3 = '.' then '-' else c3

lemma normalize_model_id_data (s : String) :
    (normalize_model_id s).data = s.data.map normalizeChar := by
  by_cases h : s = ""
  · subst h; rfl
  · simp only [normalize_model_id, if_neg h, pyReplaceChar, pyLower,
      String.map_eq, List.map_map]
    rfl

lemma toLower_ofNat_shift (n : Nat) (h1 : 65 ≤ n) (h2 : n ≤ 90) :
    Char.toLower (Char.ofNat (n + 32)) = Char.ofNat (n + 32) := by
  interval_cases n <;> decide

lemma toLower_idem (c : Char) :
    Char.toLower (Char.toLower c) = Char.toLower c := by
  by_cases h : c.toNat ≥ 65 ∧ c.toNat ≤ 90
  · have hc : c.toLower = Char.ofNat (c.toNat + 32) := by
      unfold Char.toLower
      rw [if_pos h]
    rw [hc]
    exact toLower_ofNat_shift c.toNat h.1 h.2
  · have hc : c.toLower = c := by
      unfold Char.toLower
      rw [if_neg h]
    rw [hc, hc]

lemma normalizeChar_cases (c : Char) :
    normalizeChar c = '-' ∨
      (normalizeChar c = c.toLower ∧ c.toLower ≠ ' ' ∧ c.toLower ≠ '/' ∧
        c.toLower ≠ '.') := by
  unfold normalizeChar
  by_cases h1 : c.toLower = ' '
  · left; simp [h1]
  · by_cases h2 : c.toLower = '/'
    · left; simp [h1, h2]
    · by_cases h3 : c.toLower = '.'
      · left; simp [h1, h2, h3]
      · right; simp [h1, h2, h3]

lemma normalizeChar_idem (c : Char) :
    normalizeChar (normalizeChar c) = normalizeChar c := by
  rcases normalizeChar_cases c with h | ⟨h, h1, h2, h3⟩
  · rw [h]; decide
  · rw [h]
    unfold normalizeChar
    rw [toLower_idem]
    simp [h1, h2, h3]

lemma map_normalizeChar_idem (l : List Char) :
    (l.map normalizeChar).map normalizeChar = l.map normalizeChar := by
  induction l with
  | nil => rfl
  | cons c cs ih => rw [List.map_cons, List.map_cons, ih, normalizeChar_idem]

/-- C5: `normalize_model_id` is idempotent. -/
theorem normalize_model_id_idem (x : String) :
    normalize_model_id (normalize_model_id x) = normalize_model_id x := by
  apply String.ext
  rw [normalize_model_id_data, normalize_model_id_data]
  exact map_normalizeChar_idem x.data

/-- C6: `normalize_model_id` lowercases and independently maps every
occurrence of space, `/`, `.` to its own hyphen (per-character action
`normalizeChar`); in particular the three example inputs evaluate as the
spec states. -/
theorem normalize_model_id_char_spec :
    (∀ s : String, (normalize_model_id s).data = s.data.map normalizeChar) ∧
      normalize_model_id "GPT-4.5 Turbo/Pro" = "gpt-4-5-turbo-pro" ∧
      normalize_model_id "" = "" ∧
      normalize_model_id "Model  Name" = "model--name" := by
  refine ⟨normalize_model_id_data, ?_, rfl, ?_⟩ <;>
    · apply String.ext
      rw [normalize_model_id_data]
      decide

/-! ## Hardware utilities (`src/utils/hardware.py`) -/

/-- Python `\s` (ASCII whitespace, as matched by `re` on these inputs). -/
def pyIsSpace (c : Char) : Bool :=
  c = ' ' || c = '\t' || c = '\n' || c = '\r' || c = '\x0B' || c = '\x0C'

/-- Numeric value of a digit run, as captured by the regex group `(\d+)`. -/
def digitsVal (ds : List Char) : Nat :=
  ds.foldl (fun a c => a * 10 + (c.toNat - 48)) 0

/-- One attempt of the regex `(\d+)\s*(?:GB|gb)` anchored at the head of
`cs`: a nonempty maximal digit run, optional whitespace, then `GB` or `gb`.
(Backtracking the greedy `\d+` can never succeed here, because a shortened
run leaves a digit where `G`/`g` is required.) -/
def vramMatchAt (cs : List Char) : Option Nat :=
  let ds := cs.takeWhile Char.isDigit
  if ds.isEmpty then none
  else
    match (cs.drop ds.length).dropWhile pyIsSpace with
    | 'G' :: 'B' :: _ => some (digitsVal ds)
    | 'g' :: 'b' :: _ => some (digitsVal ds)
    | _ => none

/-- `re.search` for `(\d+)\s*(?:GB|gb)`: try every start position left to
right, returning the first match's captured number. -/
def vramSearch : List Char → Option Nat
  | [] => none
  | c :: rest =>
    match vramMatchAt (c :: rest) with
    | some n => some n
    | none => vramSearch rest

/-- Python `int(str)` on ASCII input: strip whitespace, optional sign,
nonempty digit run; anything else raises `ValueError` (modelled as `none`). -/
def pyParseInt (s : String) : Option Int :=
  let cs := ((s.data.dropWhile pyIsSpace).reverse.dropWhile pyIsSpace).reverse
  match cs with
  | '+' :: ds =>
    if ds ≠ [] ∧ ds.all Char.isDigit then some (digitsVal ds) else none
  | '-' :: ds =>
    if ds ≠ [] ∧ ds.all Char.isDigit then some (-(digitsVal ds : Int)) else none
  | ds =>
    if ds ≠ [] ∧ ds.all Char.isDigit then some (digitsVal ds) else none

/-- `parse_vram_string` from `src/utils/hardware.py`: empty/falsy input gives
`None`; else the first `(\d+)\s*(?:GB|gb)` match; else plain `int(...)`;
else `None`. -/
def parse_vram_string (vram_str : String) : Option Int :=
  if vram_str = "" then none
  else
    match vramSearch vram_str.data with
    | some n => some (n : Int)
    | none => pyParseInt vram_str

/-- `vram_fits` from `src/utils/hardware.py`, with `model_vram` the
(string-convertible) requirement and `available_vram_gb` an integer. -/
def vram_fits (model_vram : Option String) (available_vram_gb : Int) : Bool :=
  match model_vram with
  | none => true
  | some s =>
    match parse_vram_string s with
    | none => true
    | some required => decide (required ≤ available_vram_gb)

/-- Preference flags of a hardware profile. -/
structure Preferences where
  uncensored : Bool
  local_first : Bool
  cost_sensitive : Bool
deriving Repr, DecidableEq

/-- One hardware profile (the `DEFAULT_PROFILE` shape). -/
structure HardwareProfile where
  gpu : String
  vram_gb : Int
  ram_gb : Int
  cpu_threads : Int
  preferences : Preferences
deriving Repr, DecidableEq

/-- `DEFAULT_PROFILE` from `src/utils/hardware.py`. -/
def DEFAULT_PROFILE : HardwareProfile :=
  { gpu := "Unknown", vram_gb := 8, ram_gb := 16, cpu_threads := 4,
    preferences := { uncensored := false, local_first := true, cost_sensitive := true } }

/-- Contents of `hardware_profiles.json`. -/
structure ProfilesFile where
  current : Option String
  profiles : List (String × HardwareProfile)
deriving Repr, DecidableEq

/-- `load_hardware_profiles`: a missing file loads as
`{"current": None, "profiles": {}}`. -/
def load_hardware_profiles (fs : Option ProfilesFile) : ProfilesFile :=
  fs.getD { current := none, profiles := [] }

/-- Association-list insert-or-replace keyed by the first component. -/
def alist_put {α : Type} (l : List (String × α)) (k : String) (v : α) :
    List (String × α) :=
  match l with
  | [] => [(k, v)]
  | (k2, w) :: rest => if k2 = k then (k, v) :: rest else (k2, w) :: alist_put rest k v

/-- Association-list point query keyed by the first component. -/
def alist_get {α : Type} (l : List (String × α)) (k : String) : Option α :=
  match l with
  | [] => none
  | (k2, v) :: rest => if k2 = k then some v else alist_get rest k

/-- Preference updates of `configure_profile` (never raise). -/
def apply_pref_updates (e : HardwareProfile)
    (uncensored_preference local_first cost_sensitive : Option Bool) :
    HardwareProfile :=
  let p1 := match uncensored_preference with
    | none => e.preferences
    | some b => { e.preferences with uncensored := b }
  let p2 := match local_first with
    | none => p1
    | some b => { p1 with local_first := b }
  let p3 := match cost_sensitive with
    | none => p2
    | some b => { p2 with cost_sensitive := b }
  { e with preferences := p3 }

/-- `cpu_threads` validation step of `configure_profile`. -/
def apply_cpu_update (e : HardwareProfile) (cpu_threads : Option Int)
    (up lf cs : Option Bool) : Except String HardwareProfile :=
  match cpu_threads with
  | none => Except.ok (apply_pref_updates e up lf cs)
  | some v =>
    if v ≤ 0 then
      Except.error ("cpu_threads must be a positive integer, got " ++ toString v)
    else Except.ok (apply_pref_updates { e with cpu_threads := v } up lf cs)

/-- `gpu` assignment and `ram_gb` validation step of `configure_profile`. -/
def apply_ram_update (e : HardwareProfile) (gpu : Option String)
    (ram_gb cpu_threads : Option Int) (up lf cs : Option Bool) :
    Except String HardwareProfile :=
  let e2 := match gpu with
    | none => e
    | some g => { e with gpu := g }
  match ram_gb with
  | none => apply_cpu_update e2 cpu_threads up lf cs
  | some v =>
    if v ≤ 0 then
      Except.error ("ram_gb must be a positive integer, got " ++ toString v)
    else apply_cpu_update { e2 with ram_gb := v } cpu_threads up lf cs

/-- The validate-and-update sequence of `configure_profile`: each provided
field is validated (positive integer) and written into the in-memory profile
in source order; the first failing validation raises (`Except.error`). -/
def apply_profile_updates (existing : HardwareProfile)
    (vram_gb : Option Int) (gpu : Option String)
    (ram_gb : Option Int) (cpu_threads : Option Int)
    (uncensored_preference local_first cost_sensitive : Option Bool) :
    Except String HardwareProfile :=
  match vram_gb with
  | none =>
    apply_ram_update existing gpu ram_gb cpu_threads
      uncensored_preference local_first cost_sensitive
  | some v =>
    if v ≤ 0 then
      Except.error ("vram_gb must be a positive integer, got " ++ toString v)
    else
      apply_ram_update { existing with vram_gb := v } gpu ram_gb cpu_threads
        uncensored_preference local_first cost_sensitive

/-- `configure_profile` from `src/utils/hardware.py`, with the persisted
`hardware_profiles.json` passed in and out explicitly (`none` = no file).
A raised `ValueError` is the `Except.error` branch, in which case the file
state is returned unchanged (the single `save_hardware_profiles` call only
happens after all validation). -/
def configure_profile (fs : Option ProfilesFile) (hostname : String)
    (profile_name : Option String) (vram_gb : Option Int) (gpu : Option String)
    (ram_gb : Option Int) (cpu_threads : Option Int)
    (uncensored_preference local_first cost_sensitive : Option Bool) :
    Option ProfilesFile × Except String (String × HardwareProfile) :=
  let profiles := load_hardware_profiles fs
  let name := match profile_name with
    | none => hostname
    | some n => if n = "" then hostname else n
  let existing := (alist_get profiles.profiles name).getD DEFAULT_PROFILE
  match apply_profile_updates existing vram_gb gpu ram_gb cpu_threads
      uncensored_preference local_first cost_sensitive with
  | Except.error m => (fs, Except.error m)
  | Except.ok updated =>
    let saved : ProfilesFile :=
      { current := some name, profiles := alist_put profiles.profiles name updated }
    (some saved, Except.ok (name, updated))

lemma apply_cpu_update_invalid (e : HardwareProfile) (up lf cs : Option Bool)
    (v : Int) (hv : v ≤ 0) :
    ∃ m, apply_cpu_update e (some v) up lf cs = Except.error m := by
  simp [apply_cpu_update, hv]

lemma apply_ram_update_invalid (e : HardwareProfile) (gpu : Option String)
    (ram_gb cpu_threads : Option Int) (up lf cs : Option Bool)
    (h : (∃ v, ram_gb = some v ∧ v ≤ 0) ∨ (∃ v, cpu_threads = some v ∧ v ≤ 0)) :
    ∃ m, apply_ram_update e gpu ram_gb cpu_threads up lf cs = Except.error m := by
  rcases h with ⟨v, hv, hle⟩ | ⟨v, hv, hle⟩ <;> subst hv
  · simp [apply_ram_update, hle]
  · rcases ram_gb with _ | u
    · simpa [apply_ram_update] using apply_cpu_update_invalid _ up lf cs v hle
    · by_cases hu : u ≤ 0
      · simp [apply_ram_update, hu]
      · simpa [apply_ram_update, hu] using apply_cpu_update_invalid _ up lf cs v hle

lemma apply_profile_updates_invalid (existing : HardwareProfile)
    (vram_gb : Option Int) (gpu : Option String)
    (ram_gb : Option Int) (cpu_threads : Option Int)
    (up lf cs : Option Bool)
    (h : (∃ v, vram_gb = some v ∧ v ≤ 0) ∨ (∃ v, ram_gb = some v ∧ v ≤ 0) ∨
      (∃ v, cpu_threads = some v ∧ v ≤ 0)) :
    ∃ m, apply_profile_updates existing vram_gb gpu ram_gb cpu_threads up lf cs =
      Except.error m := by
  rcases h with ⟨v, hv, hle⟩ | h'
  · subst hv
    simp [apply_profile_updates, hle]
  · rcases vram_gb with _ | w
    · simpa [apply_profile_updates] using
        apply_ram_update_invalid existing gpu ram_gb cpu_threads up lf cs h'
    · by_cases hw : w ≤ 0
      · simp [apply_profile_updates, hw]
      · simpa [apply_profile_updates, hw] using
          apply_ram_update_invalid _ gpu ram_gb cpu_threads up lf cs h'

/-- C9: a provided `vram_gb`, `ram_gb` or `cpu_threads` value that is not a
positive integer makes `configure_profile` raise a `ValueError`
(`Except.error`), and the persisted hardware-profiles file is returned
unchanged. -/
theorem configure_profile_rejects_invalid (fs : Option ProfilesFile)
    (hostname : String) (profile_name : Option String)
    (vram_gb : Option Int) (gpu : Option String)
    (ram_gb : Option Int) (cpu_threads : Option Int)
    (up lf cs : Option Bool)
    (h : (∃ v, vram_gb = some v ∧ v ≤ 0) ∨ (∃ v, ram_gb = some v ∧ v ≤ 0) ∨
      (∃ v, cpu_threads = some v ∧ v ≤ 0)) :
    (configure_profile fs hostname profile_name vram_gb gpu ram_gb cpu_threads
        up lf cs).1 = fs ∧
      ∃ m, (configure_profile fs hostname profile_name vram_gb gpu ram_gb
        cpu_threads up lf cs).2 = Except.error m := by
  obtain ⟨m, hm⟩ := apply_profile_updates_invalid
    ((alist_get (load_hardware_profiles fs).profiles
      (match profile_name with
        | none => hostname
        | some n => if n = "" then hostname else n)).getD DEFAULT_PROFILE)
    vram_gb gpu ram_gb cpu_threads up lf cs h
  simp only [configure_profile]
  rw [hm]
  exact ⟨rfl, m, rfl⟩

/-- C9 witness: at a concrete invalid input (`vram_gb = -4`) the call
errors and the on-disk state is unchanged. -/
theorem configure_profile_rejects_invalid_witness :
    (configure_profile none "host" none (some (-4)) none none none
        none none none).1 = none ∧
      ∃ m, (configure_profile none "host" none (some (-4)) none none none
        none none none).2 = Except.error m :=
  configure_profile_rejects_invalid none "host" none (some (-4)) none none none
    none none none (Or.inl ⟨-4, rfl, by decide⟩)

/-- C7 counterexample: the requirement `"0GB"` parses to zero, yet with
`available_vram_gb = -1` (an integer) `vram_fits` returns `false`, so a
zero requirement does not fit for *every* integer availability. -/
theorem vram_fits_zero_counterexample :
    parse_vram_string "0GB" = some 0 ∧ vram_fits (some "0GB") (-1) = false := by
  constructor <;> decide

/-- C7 (amended): a `None` requirement always fits, an unparsable
requirement always fits, a requirement parsing to zero fits whenever the
available amount is nonnegative, a parsed requirement strictly above the
available amount never fits, and an exactly-equal requirement fits. -/
theorem vram_fits_spec (s : String) (a r : Int) :
    vram_fits none a = true ∧
      (parse_vram_string s = none → vram_fits (some s) a = true) ∧
      (parse_vram_string s = some 0 → 0 ≤ a → vram_fits (some s) a = true) ∧
      (parse_vram_string s = some r → a < r → vram_fits (some s) a = false) ∧
      (parse_vram_string s = some r → r = a → vram_fits (some s) a = true) := by
  refine ⟨rfl, ?_, ?_, ?_, ?_⟩ <;> intro h
  · simp [vram_fits, h]
  · intro ha; simp [vram_fits, h, ha]
  · intro ha
    simp only [vram_fits, h, decide_eq_false_iff_not]
    omega
  · intro ha
    simp only [vram_fits, h, decide_eq_true_eq]
    omega

/-- C7 witness: concrete instances of each hypothesis-bearing clause of
`vram_fits_spec`. -/
theorem vram_fits_spec_witness :
    (parse_vram_string "banana" = none ∧ vram_fits (some "banana") 5 = true) ∧
      (parse_vram_string "0GB" = some 0 ∧ vram_fits (some "0GB") 0 = true) ∧
      (parse_vram_string "16GB" = some 16 ∧ vram_fits (some "16GB") 15 = false) ∧
      (parse_vram_string "16GB" = some 16 ∧ vram_fits (some "16GB") 16 = true) :=
  ⟨⟨by decide, (vram_fits_spec "banana" 5 0).2.1 (by decide)⟩,
   ⟨by decide, (vram_fits_spec "0GB" 0 0).2.2.1 (by decide) (by decide)⟩,
   ⟨by decide, (vram_fits_spec "16GB" 15 16).2.2.2.1 (by decide) (by decide)⟩,
   ⟨by decide, (vram_fits_spec "16GB" 16 16).2.2.2.2 (by decide) rfl⟩⟩

/-! ## Cache manager (`src/fetchers/cache_manager.py`)

State-passing embedding of `CacheManager`. The SQLite store is a `Store`
value; the process clock is a `Timestamp` argument (`now.date` is
`date.today()`); the external fetchers are an oracle `FetchEnv` whose calls
either return records or raise. `refresh_if_stale` is the body executed
while holding the per-category lock, and additionally returns the list of
`_fetch_from_source` invocations it performed. -/

/-- A process-clock reading: calendar date (as an ordinal) plus time of
day. Only the date enters freshness comparisons. -/
structure Timestamp where
  date : Int
  time_of_day : Nat
deriving Repr, DecidableEq

/-- One raw record as produced by a fetcher: exactly the dict fields
`_update_models` reads (absent optional keys are `none`). -/
structure ModelDict where
  id : String
  name : String
  category : Option String
  is_open_source : Option Bool
  sota_rank : Option Int
  metrics : Option String
deriving Repr, DecidableEq

/-- One row of the `models` table (the columns written by
`_update_models`; `metrics` is the serialized JSON text). -/
structure ModelRow where
  id : String
  name : String
  category : String
  is_open_source : Bool
  is_sota : Bool
  sota_rank : Option Int
  metrics : String
  last_updated : Timestamp
  source : String
deriving Repr, DecidableEq

/-- One row of the `cache_status` table. `last_fetched = none` models both
an absent/NULL and an unparsable timestamp. -/
structure CacheStatusRow where
  last_fetched : Option Timestamp
  fetch_source : Option String
  fetch_success : Bool
  error_message : Option String
deriving Repr, DecidableEq

/-- The persistent store: `models` (primary key `id`) and `cache_status`
(primary key `category`). -/
structure Store where
  models : List ModelRow
  cache_status : List (String × CacheStatusRow)
deriving Repr, DecidableEq

/-- The dict returned by `refresh_if_stale`. -/
structure RefreshResult where
  refreshed : Bool
  source : Option String
  models_updated : Nat
  error : Option String
deriving Repr, DecidableEq

/-- `CATEGORY_SOURCES.get(category, [])`: the fixed priority-ordered source
table; an unknown category yields `[]`. -/
def CATEGORY_SOURCES (category : String) : List String :=
  if category = "llm_local" then ["huggingface"]
  else if category = "llm_api" then ["lmarena", "artificial_analysis"]
  else if category = "llm_coding" then ["huggingface", "lmarena"]
  else if category = "image_gen" then ["artificial_analysis"]
  else if category = "image_edit" then ["artificial_analysis"]
  else if category = "video" then ["artificial_analysis"]
  else if category = "tts" then ["artificial_analysis"]
  else if category = "stt" then ["huggingface"]
  else if category = "music" then []
  else if category = "3d" then []
  else if category = "embeddings" then ["huggingface"]
  else []

/-- The external fetcher methods, as oracles: each call either returns a
list of records or raises (`Except.error` carries `str(e)`). -/
structure FetchEnv where
  fetch_llm_leaderboard : Except String (List ModelDict)
  fetch_trending_models : String → Nat → Except String (List ModelDict)
  fetch_elo_rankings : Except String (List ModelDict)
  fetch_aa_category : String → Except String (List ModelDict)

/-- The `aa_category_map` lookup inside `_fetch_from_source`. -/
def aa_category_map (category : String) : Option String :=
  if category = "llm_api" then some "llm"
  else if category = "image_gen" then some "image_gen"
  else if category = "image_edit" then some "image_gen"
  else if category = "video" then some "video"
  else if category = "tts" then some "tts"
  else none

/-- `_fetch_from_source` from `cache_manager.py`. -/
def fetch_from_source (env : FetchEnv) (source category : String) :
    Except String (List ModelDict) :=
  if source = "huggingface" then
    if category = "llm_local" ∨ category = "llm_coding" then
      env.fetch_llm_leaderboard
    else if category = "embeddings" then
      env.fetch_trending_models "feature-extraction" 10
    else if category = "stt" then
      env.fetch_trending_models "automatic-speech-recognition" 10
    else Except.ok []
  else if source = "lmarena" then env.fetch_elo_rankings
  else if source = "artificial_analysis" then
    match aa_category_map category with
    | some aa_cat => env.fetch_aa_category aa_cat
    | none => Except.ok []
  else Except.ok []

/-- Outcome of the source loop of `refresh_if_stale`. -/
structure TryResult where
  source_used : Option String
  models : List ModelDict
  error : Option String
  invoked : List String
deriving Repr, DecidableEq

/-- The `for source in sources` loop of `refresh_if_stale`: the first
non-empty fetch wins and breaks; a raising source has its message captured
into `error` and the loop continues; an empty success leaves `error`
untouched; `invoked` records the `_fetch_from_source` calls made. -/
def try_sources (env : FetchEnv) (category : String) :
    List String → Option String → TryResult
  | [], error =>
    { source_used := none, models := [], error := error, invoked := [] }
  | source :: rest, error =>
    match fetch_from_source env source category with
    | Except.ok fetched =>
      if fetched = [] then
        let r := try_sources env category rest error
        { r with invoked := source :: r.invoked }
      else
        { source_used := some source, models := fetched, error := error,
          invoked := [source] }
    | Except.error e =>
      let r := try_sources env category rest (some e)
      { r with invoked := source :: r.invoked }

/-- `is_cache_fresh`: the category's status row exists, its timestamp is
present and parsable, and its calendar date equals today's. -/
def is_cache_fresh (st : Store) (category : String) (today : Int) : Bool :=
  match alist_get st.cache_status category with
  | none => false
  | some row =>
    match row.last_fetched with
    | none => false
    | some t => decide (t.date = today)

/-- `INSERT OR REPLACE INTO models`, keyed by the primary key `id`. -/
def upsert_model (rows : List ModelRow) (r : ModelRow) : List ModelRow :=
  match rows with
  | [] => [r]
  | row :: rest => if row.id = r.id then r :: rest else row :: upsert_model rest r

/-- The row `_update_models` writes for one fetched record. -/
def model_row_of (category : String) (now : Timestamp) (m : ModelDict) :
    ModelRow :=
  { id := m.id, name := m.name, category := m.category.getD category,
    is_open_source := m.is_open_source.getD true, is_sota := true,
    sota_rank := m.sota_rank, metrics := m.metrics.getD "\x7b\x7d",
    last_updated := now, source := "auto" }

/-- `_update_models`: upsert every record in order; the returned count is
the number of submitted records. -/
def update_models (st : Store) (category : String) (models : List ModelDict)
    (now : Timestamp) : Store × Nat :=
  if models = [] then (st, 0)
  else
    ({ st with
        models := models.foldl
          (fun rows m => upsert_model rows (model_row_of category now m))
          st.models },
      models.length)

/-- `_update_cache_status`: insert-or-replace the category's status row,
stamped with the current time. -/
def update_cache_status (st : Store) (category : String)
    (source : Option String) (success : Bool) (error : Option String)
    (now : Timestamp) : Store :=
  { st with
      cache_status := alist_put st.cache_status category
        { last_fetched := some now, fetch_source := source,
          fetch_success := success, error_message := error } }

/-- Python `error or default` on an optional string: `None` and the empty
string are falsy. -/
def py_or_default (e : Option String) (d : String) : String :=
  match e with
  | none => d
  | some s => if s = "" then d else s

/-- `refresh_if_stale` (the body holding the per-category lock). Returns
the new store, the result dict, and the `_fetch_from_source` invocations
made. -/
def refresh_if_stale (env : FetchEnv) (now : Timestamp) (st : Store)
    (category : String) : Store × RefreshResult × List String :=
  if is_cache_fresh st category now.date then
    (st,
      { refreshed := false, source := some "cache", models_updated := 0,
        error := none }, [])
  else
    let sources := CATEGORY_SOURCES category
    if sources = [] then
      (update_cache_status st category (some "manual") true none now,
        { refreshed := true, source := some "manual", models_updated := 0,
          error := none }, [])
    else
      let r := try_sources env category sources none
      if r.models = [] then
        (update_cache_status st category r.source_used false r.error now,
          { refreshed := false, source := r.source_used, models_updated := 0,
            error := some (py_or_default r.error "No data returned from sources") },
          r.invoked)
      else
        let p := update_models st category r.models now
        (update_cache_status p.1 category r.source_used true none now,
          { refreshed := true, source := r.source_used,
            models_updated := p.2, error := none }, r.invoked)

/-- `DELETE FROM cache_status WHERE category = ?`, the first step of
`force_refresh`. -/
def delete_cache_status (st : Store) (category : String) : Store :=
  { st with cache_status := st.cache_status.filter (fun p => p.1 != category) }

/-- `force_refresh`: clear the category's status row, then delegate to
`refresh_if_stale`. -/
def force_refresh (env : FetchEnv) (now : Timestamp) (st : Store)
    (category : String) : Store × RefreshResult × List String :=
  refresh_if_stale env now (delete_cache_status st category) category

/-- A fetch attempt "fails" when it raises or returns the empty list. -/
def fetch_fails (r : Except String (List ModelDict)) : Prop :=
  r = Except.ok [] ∨ ∃ m, r = Except.error m

/-- The value of the loop's `error` variable after running through a whole
source list: the message of the last raising source, if any. -/
def last_captured_error (env : FetchEnv) (category : String) :
    List String → Option String → Option String
  | [], e => e
  | s :: rest, e =>
    match fetch_from_source env s category with
    | Except.ok _ => last_captured_error env category rest e
    | Except.error m => last_captured_error env category rest (some m)

lemma alist_get_put {α : Type} (l : List (String × α)) (k : String) (v : α) :
    alist_get (alist_put l k v) k = some v := by
  induction l with
  | nil => simp [alist_put, alist_get]
  | cons p rest ih =>
    rcases p with ⟨k2, w⟩
    by_cases h : k2 = k
    · simp [alist_put, alist_get, h]
    · simp [alist_put, alist_get, h, ih]

lemma alist_get_put_ne {α : Type} (l : List (String × α)) (k k2 : String)
    (v : α) (h : k2 ≠ k) :
    alist_get (alist_put l k v) k2 = alist_get l k2 := by
  induction l with
  | nil => simp [alist_put, alist_get, Ne.symm h]
  | cons p rest ih =>
    rcases p with ⟨k3, w⟩
    by_cases h3 : k3 = k
    · subst h3
      simp [alist_put, alist_get, Ne.symm h]
    · simp only [alist_put, if_neg h3, alist_get]
      by_cases h4 : k3 = k2 <;> simp [h4, ih]

lemma alist_get_filter_self {α : Type} (l : List (String × α)) (k : String) :
    alist_get (l.filter (fun p => p.1 != k)) k = none := by
  induction l with
  | nil => rfl
  | cons p rest ih =>
    rcases p with ⟨k2, w⟩
    by_cases h : k2 = k
    · simp [List.filter_cons, h, ih]
    · simp [List.filter_cons, bne_iff_ne, alist_get, h, ih]

lemma alist_get_filter_ne {α : Type} (l : List (String × α)) (k k2 : String)
    (h : k2 ≠ k) :
    alist_get (l.filter (fun p => p.1 != k)) k2 = alist_get l k2 := by
  induction l with
  | nil => rfl
  | cons p rest ih =>
    rcases p with ⟨k3, w⟩
    by_cases h3 : k3 = k
    · subst h3
      simp [List.filter_cons, alist_get, Ne.symm h, ih]
    · by_cases h4 : k3 = k2 <;>
        simp [List.filter_cons, bne_iff_ne, alist_get, h, h3, h4, ih]

lemma update_models_cache_status (st : Store) (category : String)
    (models : List ModelDict) (now : Timestamp) :
    (update_models st category models now).1.cache_status = st.cache_status := by
  unfold update_models
  split <;> rfl

lemma update_cache_status_models (st : Store) (category : String)
    (source : Option String) (success : Bool) (error : Option String)
    (now : Timestamp) :
    (update_cache_status st category source success error now).models =
      st.models := rfl

lemma refresh_if_stale_of_fresh (env : FetchEnv) (now : Timestamp)
    (st : Store) (category : String)
    (h : is_cache_fresh st category now.date = true) :
    refresh_if_stale env now st category =
      (st,
        { refreshed := false, source := some "cache", models_updated := 0,
          error := none }, []) := by
  simp [refresh_if_stale, h]

lemma refresh_if_stale_stamps (env : FetchEnv) (now : Timestamp) (st : Store)
    (category : String)
    (h : is_cache_fresh st category now.date = false) :
    ∃ src succ err,
      alist_get (refresh_if_stale env now st category).1.cache_status category =
        some { last_fetched := some now, fetch_source := src,
               fetch_success := succ, error_message := err } := by
  simp only [refresh_if_stale, h, Bool.false_eq_true, if_false]
  by_cases hsrc : CATEGORY_SOURCES category = []
  · simp only [hsrc, if_pos rfl]
    exact ⟨some "manual", true, none, alist_get_put _ _ _⟩
  · simp only [if_neg hsrc]
    by_cases hm : (try_sources env category (CATEGORY_SOURCES category) none).models = []
    · simp only [hm, if_pos rfl]
      exact ⟨_, _, _, alist_get_put _ _ _⟩
    · simp only [if_neg hm, update_cache_status, update_models_cache_status]
      exact ⟨_, _, _, alist_get_put _ _ _⟩

lemma try_sources_win (env : FetchEnv) (category : String)
    (pre post : List String) (winner : String) (l : List ModelDict)
    (e0 : Option String)
    (hfail : ∀ s ∈ pre, fetch_fails (fetch_from_source env s category))
    (hwin : fetch_from_source env winner category = Except.ok l)
    (hne : l ≠ []) :
    ∃ e, try_sources env category (pre ++ winner :: post) e0 =
      { source_used := some winner, models := l, error := e,
        invoked := pre ++ [winner] } := by
  revert hfail
  induction pre generalizing e0 with
  | nil =>
    intro _
    exact ⟨e0, by simp [try_sources, hwin, hne]⟩
  | cons s ps ih =>
    intro hfail
    have hfail2 : ∀ t ∈ ps, fetch_fails (fetch_from_source env t category) :=
      fun t ht => hfail t (List.mem_cons_of_mem s ht)
    rcases hfail s (List.mem_cons_self s ps) with hok | ⟨m, hm⟩
    · obtain ⟨e, he⟩ := ih e0 hfail2
      exact ⟨e, by simp [try_sources, hok, he]⟩
    · obtain ⟨e, he⟩ := ih (some m) hfail2
      exact ⟨e, by simp [try_sources, hm, he]⟩

lemma try_sources_all_fail (env : FetchEnv) (category : String)
    (sources : List String) (e0 : Option String)
    (hfail : ∀ s ∈ sources, fetch_fails (fetch_from_source env s category)) :
    try_sources env category sources e0 =
      { source_used := none, models := [],
        error := last_captured_error env category sources e0,
        invoked := sources } := by
  revert hfail
  induction sources generalizing e0 with
  | nil => intro _; rfl
  | cons s rest ih =>
    intro hfail
    have hfail2 : ∀ t ∈ rest, fetch_fails (fetch_from_source env t category) :=
      fun t ht => hfail t (List.mem_cons_of_mem s ht)
    rcases hfail s (List.mem_cons_self s rest) with hok | ⟨m, hm⟩
    · simp [try_sources, last_captured_error, hok, ih e0 hfail2]
    · simp [try_sources, last_captured_error, hm, ih (some m) hfail2]

lemma is_cache_fresh_after_refresh (env : FetchEnv) (now : Timestamp)
    (st : Store) (category : String) (d : Int)
    (h : is_cache_fresh st category now.date = false) (hd : d = now.date) :
    is_cache_fresh (refresh_if_stale env now st category).1 category d = true := by
  obtain ⟨src, succ, err, hrow⟩ := refresh_if_stale_stamps env now st category h
  simp [is_cache_fresh, hrow, hd]

/-! ### Concrete instances used by witnesses and counterexamples -/

/-- A clock reading at calendar date 0. -/
def now0 : Timestamp := { date := 0, time_of_day := 0 }

/-- The empty store. -/
def st0 : Store := { models := [], cache_status := [] }

/-- A store whose `llm_api` status row was stamped on date 0. -/
def stFresh : Store :=
  { models := [],
    cache_status := [("llm_api",
      { last_fetched := some { date := 0, time_of_day := 3 },
        fetch_source := some "lmarena", fetch_success := true,
        error_message := none })] }

/-- A pre-existing model row. -/
def rowOld : ModelRow :=
  { id := "old-model", name := "Old Model", category := "tts",
    is_open_source := true, is_sota := true, sota_rank := some 1,
    metrics := "\x7b\x7d", last_updated := { date := -3, time_of_day := 0 },
    source := "auto" }

/-- A store with one existing model row and one stale status row. -/
def stOld : Store :=
  { models := [rowOld],
    cache_status := [("video",
      { last_fetched := some { date := -3, time_of_day := 0 },
        fetch_source := some "artificial_analysis", fetch_success := true,
        error_message := none })] }

/-- An oracle where every fetcher call succeeds with an empty list. -/
def envEmptyFetch : FetchEnv :=
  { fetch_llm_leaderboard := Except.ok [],
    fetch_trending_models := fun _ _ => Except.ok [],
    fetch_elo_rankings := Except.ok [],
    fetch_aa_category := fun _ => Except.ok [] }

/-- A sample fetched record. -/
def mdGpt5 : ModelDict :=
  { id := "gpt-5", name := "GPT-5", category := none,
    is_open_source := some false, sota_rank := some 1, metrics := none }

/-- An oracle where `lmarena` raises and `artificial_analysis` returns one
record. -/
def envAaWins : FetchEnv :=
  { fetch_llm_leaderboard := Except.ok [],
    fetch_trending_models := fun _ _ => Except.ok [],
    fetch_elo_rankings := Except.error "connection timed out",
    fetch_aa_category := fun _ => Except.ok [mdGpt5] }

/-! ### The claims -/

/-- C1: if the cache is fresh for a category, `refresh_if_stale` invokes no
fetcher, writes nothing to the store, and returns exactly
`{refreshed: false, source: "cache", models_updated: 0, error: null}`. -/
theorem refresh_fresh_serves_cache (env : FetchEnv) (now : Timestamp)
    (st : Store) (category : String)
    (h : is_cache_fresh st category now.date = true) :
    refresh_if_stale env now st category =
      (st,
        { refreshed := false, source := some "cache", models_updated := 0,
          error := none }, []) :=
  refresh_if_stale_of_fresh env now st category h

/-- C1 witness: a store whose `llm_api` row was stamped today is served
from cache unchanged. -/
theorem refresh_fresh_serves_cache_witness :
    is_cache_fresh stFresh "llm_api" now0.date = true ∧
      refresh_if_stale envEmptyFetch now0 stFresh "llm_api" =
        (stFresh,
          { refreshed := false, source := some "cache", models_updated := 0,
            error := none }, []) :=
  ⟨by decide,
    refresh_fresh_serves_cache envEmptyFetch now0 stFresh "llm_api" (by decide)⟩

/-- C2: a stale category with an empty configured source list invokes no
fetcher, leaves the model rows untouched, stamps cache-status with source
"manual" and success, and returns
`{refreshed: true, source: "manual", models_updated: 0, error: null}`;
moreover every unrecognized category has an empty source list. -/
theorem refresh_manual_category (env : FetchEnv) (now : Timestamp)
    (st : Store) (category : String)
    (hsrc : CATEGORY_SOURCES category = [])
    (h : is_cache_fresh st category now.date = false) :
    refresh_if_stale env now st category =
      (update_cache_status st category (some "manual") true none now,
        { refreshed := true, source := some "manual", models_updated := 0,
          error := none }, []) ∧
      (refresh_if_stale env now st category).1.models = st.models ∧
      alist_get (refresh_if_stale env now st category).1.cache_status category =
        some { last_fetched := some now, fetch_source := some "manual",
               fetch_success := true, error_message := none } ∧
      ∀ c : String,
        c ∉ ["llm_local", "llm_api", "llm_coding", "image_gen", "image_edit",
          "video", "tts", "stt", "music", "3d", "embeddings"] →
        CATEGORY_SOURCES c = [] := by
  have h1 : refresh_if_stale env now st category =
      (update_cache_status st category (some "manual") true none now,
        { refreshed := true, source := some "manual", models_updated := 0,
          error := none }, []) := by
    simp [refresh_if_stale, h, hsrc]
  refine ⟨h1, ?_, ?_, ?_⟩
  · rw [h1]
    rfl
  · rw [h1]
    exact alist_get_put _ _ _
  · intro c hc
    simp only [List.mem_cons, List.not_mem_nil, not_or, or_false] at hc
    obtain ⟨a1, a2, a3, a4, a5, a6, a7, a8, a9, a10, a11⟩ := hc
    simp [CATEGORY_SOURCES, a1, a2, a3, a4, a5, a6, a7, a8, a9, a10, a11]

/-- C2 witness: the `music` category (configured with no sources) on a
stale store. -/
theorem refresh_manual_category_witness :
    CATEGORY_SOURCES "music" = [] ∧
      is_cache_fresh st0 "music" now0.date = false ∧
      refresh_if_stale envEmptyFetch now0 st0 "music" =
        (update_cache_status st0 "music" (some "manual") true none now0,
          { refreshed := true, source := some "manual", models_updated := 0,
            error := none }, []) ∧
      CATEGORY_SOURCES "not-a-category" = [] :=
  ⟨rfl, by decide,
    (refresh_manual_category envEmptyFetch now0 st0 "music" rfl (by decide)).1,
    (refresh_manual_category envEmptyFetch now0 st0 "music" rfl (by decide)).2.2.2
      "not-a-category" (by decide)⟩

/-- C3: for a stale category whose configured source list splits as
`pre ++ winner :: post` where every source in `pre` fails (raises or
returns empty) and `winner` returns a non-empty list `l`, the refresh
invokes exactly `pre ++ [winner]` (later sources are never invoked),
upserts exactly the records of `l`, and returns the winning source with
`success` stamped and a null error. -/
theorem refresh_first_success_wins (env : FetchEnv) (now : Timestamp)
    (st : Store) (category : String) (pre post : List String)
    (winner : String) (l : List ModelDict)
    (hstale : is_cache_fresh st category now.date = false)
    (hsrc : CATEGORY_SOURCES category = pre ++ winner :: post)
    (hfail : ∀ s ∈ pre, fetch_fails (fetch_from_source env s category))
    (hwin : fetch_from_source env winner category = Except.ok l)
    (hne : l ≠ []) :
    refresh_if_stale env now st category =
      (update_cache_status (update_models st category l now).1 category
          (some winner) true none now,
        { refreshed := true, source := some winner,
          models_updated := l.length, error := none },
        pre ++ [winner]) := by
  obtain ⟨e, he⟩ := try_sources_win env category pre post winner l none hfail hwin hne
  have hnil : CATEGORY_SOURCES category ≠ [] := by
    rw [hsrc]
    exact List.append_ne_nil_of_right_ne_nil pre (List.cons_ne_nil winner post)
  simp only [refresh_if_stale, hstale, Bool.false_eq_true, if_false,
    if_neg hnil, hsrc, he, hne, if_neg hne]
  simp [update_models, hne]

/-- C3 witness: for `llm_api`, `lmarena` raises and `artificial_analysis`
returns one record, which alone is upserted. -/
theorem refresh_first_success_wins_witness :
    fetch_from_source envAaWins "lmarena" "llm_api" =
        Except.error "connection timed out" ∧
      fetch_from_source envAaWins "artificial_analysis" "llm_api" =
        Except.ok [mdGpt5] ∧
      refresh_if_stale envAaWins now0 st0 "llm_api" =
        (update_cache_status (update_models st0 "llm_api" [mdGpt5] now0).1
            "llm_api" (some "artificial_analysis") true none now0,
          { refreshed := true, source := some "artificial_analysis",
            models_updated := 1, error := none },
          ["lmarena"] ++ ["artificial_analysis"]) :=
  ⟨rfl, rfl,
    refresh_first_success_wins envAaWins now0 st0 "llm_api" ["lmarena"] []
      "artificial_analysis" [mdGpt5] (by decide) rfl
      (by
        intro s hs
        simp only [List.mem_singleton] at hs
        subst hs
        exact Or.inr ⟨"connection timed out", rfl⟩)
      rfl (by decide)⟩

/-- C4 counterexample: with both `llm_api` sources failing by returning
empty lists (no exception raised), the code stamps `fetch_source = None`
(not the last source tried, `artificial_analysis`) and a NULL
`error_message` (not a non-null message), contradicting the claim. -/
theorem refresh_all_fail_counterexample :
    fetch_fails (fetch_from_source envEmptyFetch "lmarena" "llm_api") ∧
      fetch_fails (fetch_from_source envEmptyFetch "artificial_analysis" "llm_api") ∧
      CATEGORY_SOURCES "llm_api" = ["lmarena", "artificial_analysis"] ∧
      is_cache_fresh st0 "llm_api" now0.date = false ∧
      (refresh_if_stale envEmptyFetch now0 st0 "llm_api").2.1.source = none ∧
      (refresh_if_stale envEmptyFetch now0 st0 "llm_api").2.1.source ≠
        some "artificial_analysis" ∧
      alist_get (refresh_if_stale envEmptyFetch now0 st0 "llm_api").1.cache_status
          "llm_api" =
        some { last_fetched := some now0, fetch_source := none,
               fetch_success := false, error_message := none } :=
  ⟨Or.inl rfl, Or.inl rfl, rfl, by decide, by decide, by decide, by decide⟩

/-- C4 (amended): when every configured source of a stale category raises
or returns empty, the refresh leaves the model rows unchanged, stamps
cache-status with source `None` (the code only records a source that
produced data), success `false`, and the last captured exception message —
NULL when every source merely returned empty — and returns
`{refreshed: false, source: null, models_updated: 0,
error: <last captured message or "No data returned from sources">}`. -/
theorem refresh_all_sources_fail (env : FetchEnv) (now : Timestamp)
    (st : Store) (category : String)
    (hstale : is_cache_fresh st category now.date = false)
    (hne : CATEGORY_SOURCES category ≠ [])
    (hfail : ∀ s ∈ CATEGORY_SOURCES category,
      fetch_fails (fetch_from_source env s category)) :
    refresh_if_stale env now st category =
      (update_cache_status st category none false
          (last_captured_error env category (CATEGORY_SOURCES category) none) now,
        { refreshed := false, source := none, models_updated := 0,
          error := some (py_or_default (last_captured_error env category
            (CATEGORY_SOURCES category) none)
            "No data returned from sources") },
        CATEGORY_SOURCES category) ∧
      (refresh_if_stale env now st category).1.models = st.models ∧
      alist_get (refresh_if_stale env now st category).1.cache_status category =
        some { last_fetched := some now, fetch_source := none,
               fetch_success := false,
               error_message :=
                 last_captured_error env category (CATEGORY_SOURCES category)
                   none } := by
  have htry := try_sources_all_fail env category (CATEGORY_SOURCES category)
    none hfail
  have h1 : refresh_if_stale env now st category =
      (update_cache_status st category none false
          (last_captured_error env category (CATEGORY_SOURCES category) none) now,
        { refreshed := false, source := none, models_updated := 0,
          error := some (py_or_default (last_captured_error env category
            (CATEGORY_SOURCES category) none)
            "No data returned from sources") },
        CATEGORY_SOURCES category) := by
    simp [refresh_if_stale, hstale, hne, htry]
  refine ⟨h1, ?_, ?_⟩
  · rw [h1]
    rfl
  · rw [h1]
    exact alist_get_put _ _ _

/-- C4 witness: the `video` category of a store holding one model row;
the only configured source returns empty, the row survives. -/
theorem refresh_all_sources_fail_witness :
    is_cache_fresh stOld "video" now0.date = false ∧
      CATEGORY_SOURCES "video" ≠ [] ∧
      refresh_if_stale envEmptyFetch now0 stOld "video" =
        (update_cache_status stOld "video" none false
            (last_captured_error envEmptyFetch "video"
              (CATEGORY_SOURCES "video") none) now0,
          { refreshed := false, source := none, models_updated := 0,
            error := some (py_or_default (last_captured_error envEmptyFetch "video"
              (CATEGORY_SOURCES "video") none)
              "No data returned from sources") },
          CATEGORY_SOURCES "video") ∧
      (refresh_if_stale envEmptyFetch now0 stOld "video").1.models =
        stOld.models := by
  have h := refresh_all_sources_fail envEmptyFetch now0 stOld "video"
    (by decide) (by decide)
    (by
      intro s hs
      have hs2 : s = "artificial_analysis" := by
        simpa [CATEGORY_SOURCES] using hs
      subst hs2
      exact Or.inl rfl)
  exact ⟨by decide, by decide, h.1, h.2.1⟩

/-- C8: `force_refresh` deletes only the category's cache-status row
(leaving the model rows and every other category's status untouched, and
making `is_cache_fresh` false before any fetch), then delegates to
`refresh_if_stale`; after it completes, `is_cache_fresh` is true. -/
theorem force_refresh_spec (env : FetchEnv) (now : Timestamp) (st : Store)
    (category : String) :
    (delete_cache_status st category).models = st.models ∧
      (∀ d : Int,
        is_cache_fresh (delete_cache_status st category) category d = false) ∧
      (∀ k : String, k ≠ category →
        alist_get (delete_cache_status st category).cache_status k =
          alist_get st.cache_status k) ∧
      force_refresh env now st category =
        refresh_if_stale env now (delete_cache_status st category) category ∧
      is_cache_fresh (force_refresh env now st category).1 category now.date =
        true := by
  have hdel : ∀ d : Int,
      is_cache_fresh (delete_cache_status st category) category d = false := by
    intro d
    simp [is_cache_fresh, delete_cache_status, alist_get_filter_self]
  refine ⟨rfl, hdel, ?_, rfl, ?_⟩
  · intro k hk
    exact alist_get_filter_ne st.cache_status category k hk
  · exact is_cache_fresh_after_refresh env now _ category now.date
      (hdel now.date) rfl

/-- C8 witness: forcing a refresh of a currently fresh `llm_api` store:
the deletion leaves models and the `video` status untouched, and the
completed call leaves the category fresh again. -/
theorem force_refresh_spec_witness :
    (delete_cache_status stFresh "llm_api").models = stFresh.models ∧
      is_cache_fresh (delete_cache_status stFresh "llm_api") "llm_api" 0 =
        false ∧
      alist_get (delete_cache_status stFresh "llm_api").cache_status "video" =
        alist_get stFresh.cache_status "video" ∧
      is_cache_fresh (force_refresh envEmptyFetch now0 stFresh "llm_api").1
        "llm_api" now0.date = true := by
  have h := force_refresh_spec envEmptyFetch now0 stFresh "llm_api"
  exact ⟨h.1, h.2.1 0, h.2.2.1 "video" (by decide), h.2.2.2.2⟩

/-- C10: any `refresh_if_stale` call that is not served from cache — even
one where all sources fail — stamps the category's cache-status with the
current time, so the category stays fresh for the rest of the calendar day
and a second call that day is served from cache, performing no fetch. -/
theorem refresh_stamps_today_no_retry (env env2 : FetchEnv)
    (now now2 : Timestamp) (st : Store) (category : String)
    (h : is_cache_fresh st category now.date = false)
    (hday : now2.date = now.date) :
    (∃ src succ err,
      alist_get (refresh_if_stale env now st category).1.cache_status category =
        some { last_fetched := some now, fetch_source := src,
               fetch_success := succ, error_message := err }) ∧
      is_cache_fresh (refresh_if_stale env now st category).1 category
        now2.date = true ∧
      refresh_if_stale env2 now2 (refresh_if_stale env now st category).1
          category =
        ((refresh_if_stale env now st category).1,
          { refreshed := false, source := some "cache", models_updated := 0,
            error := none }, []) := by
  have h2 := is_cache_fresh_after_refresh env now st category now2.date h hday
  exact ⟨refresh_if_stale_stamps env now st category h, h2,
    refresh_if_stale_of_fresh env2 now2 _ category h2⟩

/-- C10 witness: after a completely failed refresh of `video`, the
category is fresh for the day and a retry is served from cache. -/
theorem refresh_stamps_today_no_retry_witness :
    is_cache_fresh stOld "video" now0.date = false ∧
      is_cache_fresh (refresh_if_stale envEmptyFetch now0 stOld "video").1
        "video" now0.date = true ∧
      refresh_if_stale envEmptyFetch now0
          (refresh_if_stale envEmptyFetch now0 stOld "video").1 "video" =
        ((refresh_if_stale envEmptyFetch now0 stOld "video").1,
          { refreshed := false, source := some "cache", models_updated := 0,
            error := none }, []) := by
  have h := refresh_stamps_today_no_retry envEmptyFetch envEmptyFetch now0 now0
    stOld "video" (by decide) rfl
  exact ⟨by decide, h.2.1, h.2.2⟩

end SotaTracker
